import Mathlib

/-
Verification of the conversation/message FastAPI backend (src/main.py).

Python strings are sequences of Unicode code points; we model them as
`List Char`.  The document store (database.py is not part of the sources;
only `db`, `create_document` and `get_documents` are imported by main.py)
is modelled from the spec, section 4.1: `createDocument(collection,
fields) -> id` inserts a document and returns its generated identifier,
`getDocuments(collection, filter) -> documents` returns all documents
matching an exact-match filter.  Identifiers are store-generated, unique
within their collection, and embed a creation timestamp (spec section 3,
mirroring bson ObjectId.generation_time).
-/

namespace Backend

/-- Python strings, modelled as lists of Unicode code points. -/
abbrev PyStr := List Char

/-- Characters removed by Python str.strip() with no argument
(the ASCII whitespace characters; Python also strips further Unicode
whitespace, which no claim exercises). -/
def isPySpace (c : Char) : Bool :=
  c == ' ' || c == '\t' || c == '\n' || c == '\r' || c == '\x0b' || c == '\x0c'

/-- Python `s.strip()`: drop leading and trailing whitespace. -/
def pyStrip (s : PyStr) : PyStr :=
  ((s.dropWhile isPySpace).reverse.dropWhile isPySpace).reverse

/-- The apostrophe character, U+0027. -/
def apostrophe : Char := Char.ofNat 39

/-- The fixed text preceding the echoed input in `simple_ai_response`
(main.py lines 63-65 and the final f-string on line 72):
"Entendi. Aqui está um rascunho de resposta e próximos passos:\n\nResumo: ". -/
def response_header : PyStr :=
  "Entendi. Aqui está um rascunho de resposta e próximos passos:\n\nResumo: ".toList

/-- The fixed suggestion template following the echoed input in
`simple_ai_response` (main.py lines 65-70). -/
def suggestion_block : PyStr :=
  "\n\nSugestões:\n- Se precisar, posso gerar um plano passo a passo.\n- Posso criar listas, tabelas em Markdown e exemplos de código.\n- Diga ".toList
    ++ [apostrophe] ++ "refinar".toList ++ [apostrophe]
    ++ " para melhorar alguma parte específica.\n\nFerramentas mentais usadas: decomposição, exemplos, checklist.".toList

/-- The echoed part of the reply (main.py line 65):
`user_text[:180] + ("..." if len(user_text) > 180 else "")`,
applied to the already stripped text. -/
def resumo_echo (t : PyStr) : PyStr :=
  t.take 180 ++ (if 180 < t.length then "...".toList else [])

/-- main.py lines 57-72, `simple_ai_response`: strips the input, then
builds the fixed template around the truncated echo.  The Python string
concatenations are flattened into header ++ echo ++ suggestions. -/
def simple_ai_response (user_text : PyStr) : PyStr :=
  let t := pyStrip user_text
  response_header ++ resumo_echo t ++ suggestion_block

/-- `a` occurs contiguously inside `b`. -/
def SubstrOf (a b : PyStr) : Prop := ∃ p q, b = p ++ a ++ q

/-- Executable check for `SubstrOf`. -/
def containsSub (a b : PyStr) : Bool :=
  (List.range (b.length + 1)).any (fun i => a.isPrefixOf (b.drop i))

theorem substrOf_iff_containsSub (a b : PyStr) : SubstrOf a b ↔ containsSub a b = true := by
  constructor
  · rintro ⟨p, q, rfl⟩
    simp only [containsSub, List.any_eq_true]
    refine ⟨p.length, ?_, ?_⟩
    · simp only [List.mem_range]
      have : p.length ≤ (p ++ a ++ q).length := by
        simp [List.length_append]
      omega
    · rw [List.append_assoc, List.drop_left]
      exact List.isPrefixOf_iff_prefix.mpr (List.prefix_append a q)
  · intro h
    simp only [containsSub, List.any_eq_true] at h
    obtain ⟨i, _, hpref⟩ := h
    obtain ⟨t, ht⟩ := List.isPrefixOf_iff_prefix.mp hpref
    refine ⟨b.take i, t, ?_⟩
    rw [List.append_assoc, ht, List.take_append_drop]

/-- Identifier generated by the store for a new document.  Modelled from
the spec: identifiers are store-generated, unique within their collection,
and embed a creation timestamp (spec section 3; bson ObjectId stores its
creation time in the identifier itself). -/
structure Oid where
  time : Nat
  seq : Nat
deriving DecidableEq

/-- The creation timestamp embedded in an identifier
(bson `ObjectId.generation_time`, used by main.py line 140). -/
def Oid.generation_time (o : Oid) : Nat := o.time

/-- A stored document of the "conversation" collection.  `model` is
optional because main.py line 138 defaults a missing model field. -/
structure ConvDoc where
  oid : Oid
  title : PyStr
  model : Option PyStr
deriving DecidableEq

/-- A stored document of the "message" collection (main.py lines 169-183:
conversation_id, role, content). -/
structure MsgDoc where
  oid : Oid
  conversation_id : PyStr
  role : String
  content : PyStr
deriving DecidableEq

/-- The document store state: the two collections used by main.py, plus
the counter from which the next store-generated identifier is built. -/
structure Store where
  conversations : List ConvDoc
  messages : List MsgDoc
  next : Nat
deriving DecidableEq

/-- Modelled from the spec: `create_document` of the absent database.py,
specialised to the "conversation" collection (spec section 4.1:
`createDocument(collectionName, fieldMap) -> identifier`, inserting a new
document and returning its generated identifier). -/
def create_document_conversation (title : PyStr) (model : Option PyStr) (st : Store) :
    Oid × Store :=
  let oid : Oid := ⟨st.next, st.next⟩
  (oid, { st with conversations := st.conversations ++ [⟨oid, title, model⟩],
                  next := st.next + 1 })

/-- Modelled from the spec: `create_document` of the absent database.py,
specialised to the "message" collection. -/
def create_document_message (cid : PyStr) (role : String) (content : PyStr) (st : Store) :
    Oid × Store :=
  let oid : Oid := ⟨st.next, st.next⟩
  (oid, { st with messages := st.messages ++ [⟨oid, cid, role, content⟩],
                  next := st.next + 1 })

/-- Modelled from the spec: `get_documents("conversation", ...)` with the
empty filter returns all documents of the collection (spec section 4.1). -/
def get_documents_conversation (st : Store) : List ConvDoc := st.conversations

/-- Modelled from the spec: `get_documents("message", ...)` with the
exact-match filter on the conversation_id field (spec section 4.1). -/
def get_documents_message (cid : PyStr) (st : Store) : List MsgDoc :=
  st.messages.filter (fun d => d.conversation_id == cid)

/-- An HTTP error response (fastapi HTTPException, or a pydantic request
validation failure which fastapi surfaces with status 422). -/
structure HErr where
  status : Nat
  detail : String
deriving DecidableEq

/-- Pydantic model `ConversationCreate` (main.py lines 25-27) after
successful validation: title has min_length 1, model defaults. -/
structure ConversationCreate where
  title : PyStr
  model : PyStr
deriving DecidableEq

/-- Response model `ConversationOut` (main.py lines 29-32). -/
structure ConversationOut where
  id : Oid
  title : PyStr
  model : PyStr
deriving DecidableEq

/-- Pydantic model `MessageCreate` (main.py lines 34-36) after successful
validation: role is "user" or "system" (default "user"), content has
min_length 1. -/
structure MessageCreate where
  role : String
  content : PyStr
deriving DecidableEq

/-- Response model `MessageOut` (main.py lines 38-41). -/
structure MessageOut where
  id : Oid
  role : String
  content : PyStr
deriving DecidableEq

/-- The default model name of `ConversationCreate` (main.py line 27). -/
def default_model : PyStr := "gpt-4o-mini".toList

/-- Request-body validation of `ConversationCreate` performed by fastapi
and pydantic before `create_conversation` runs: the title field is
required with min_length 1, model defaults to "gpt-4o-mini". -/
def parse_conversation_create (title : Option PyStr) (model : Option PyStr) :
    Except HErr ConversationCreate :=
  match title with
  | none => .error ⟨422, "field required"⟩
  | some t =>
    if t.length < 1 then .error ⟨422, "string should have at least 1 character"⟩
    else .ok ⟨t, model.getD default_model⟩

/-- The roles admitted by `MessageCreate.role`, a Literal of "user" and
"system" (main.py line 35). -/
def valid_role (r : String) : Bool := r == "user" || r == "system"

/-- Request-body validation of `MessageCreate` performed by fastapi and
pydantic before `send_message` runs: role defaults to "user" and must be
"user" or "system"; content is required with min_length 1. -/
def parse_message_create (role : Option String) (content : Option PyStr) :
    Except HErr MessageCreate :=
  let r := role.getD "user"
  if valid_role r then
    match content with
    | none => .error ⟨422, "field required"⟩
    | some c =>
      if c.length < 1 then .error ⟨422, "string should have at least 1 character"⟩
      else .ok ⟨r, c⟩
  else .error ⟨422, "input should be user or system"⟩

/-- Whether `bson.ObjectId(s)` accepts the string `s` (main.py lines
146-149 and 160-163): exactly 24 hexadecimal characters. -/
def isValidObjectId (s : PyStr) : Bool :=
  s.length == 24 && s.all (fun c => c.isDigit || (('a' ≤ c) && (c ≤ 'f')) || (('A' ≤ c) && (c ≤ 'F')))

/-- The mapping of a stored conversation document to `ConversationOut`
(main.py line 138), defaulting a missing model field. -/
def conv_doc_to_out (d : ConvDoc) : ConversationOut :=
  ⟨d.oid, d.title, d.model.getD default_model⟩

/-- The comparison used by `out.sort(key=lambda x: ObjectId(x.id).generation_time,
reverse=True)` on main.py line 140: `a` may stay before `b` exactly when
the creation time of `b` is at most that of `a` (descending, stable). -/
def conv_before (a b : ConversationOut) : Bool :=
  decide (b.id.generation_time ≤ a.id.generation_time)

/-- main.py lines 133-141, `list_conversations`: fetch all conversation
documents, map to output records, sort by embedded creation time
descending (Python list.sort is a stable sort, as is mergeSort). -/
def list_conversations (db : Option Store) : Except HErr (List ConversationOut) :=
  match db with
  | none => .error ⟨500, "store unavailable"⟩
  | some st =>
    let out := (get_documents_conversation st).map conv_doc_to_out
    .ok (out.mergeSort conv_before)

/-- main.py lines 125-130, `create_conversation`: persist the validated
payload and return it with the store-generated identifier. -/
def create_conversation (payload : ConversationCreate) (st : Store) :
    ConversationOut × Store :=
  let r := create_document_conversation payload.title (some payload.model) st
  (⟨r.1, payload.title, payload.model⟩, r.2)

/-- The POST /api/conversations pipeline: body validation, then the
handler; a validation failure leaves the store untouched. -/
def create_conversation_endpoint (title : Option PyStr) (model : Option PyStr)
    (db : Option Store) : Except HErr ConversationOut × Option Store :=
  match parse_conversation_create title model with
  | .error e => (.error e, db)
  | .ok payload =>
    match db with
    | none => (.error ⟨500, "store unavailable"⟩, none)
    | some st =>
      let r := create_conversation payload st
      (.ok r.1, some r.2)

/-- main.py lines 144-154, `list_messages`: validate the identifier
format (400 on failure, before any store access), then fetch the messages
of the conversation in store order. -/
def list_messages (conversation_id : PyStr) (db : Option Store) :
    Except HErr (List MessageOut) :=
  if isValidObjectId conversation_id then
    match db with
    | none => .error ⟨500, "store unavailable"⟩
    | some st =>
      .ok ((get_documents_message conversation_id st).map (fun d => ⟨d.oid, d.role, d.content⟩))
  else .error ⟨400, "Invalid conversation id"⟩

/-- main.py lines 157-188, `send_message`: validate the identifier format
(400), then require a configured store (500), then persist the user
message, synthesize the assistant reply, persist it, and return both. -/
def send_message (conversation_id : PyStr) (payload : MessageCreate) (db : Option Store) :
    Except HErr (List MessageOut) × Option Store :=
  if isValidObjectId conversation_id then
    match db with
    | none => (.error ⟨500, "Database not configured"⟩, none)
    | some st =>
      let r1 := create_document_message conversation_id payload.role payload.content st
      let reply_text := simple_ai_response payload.content
      let r2 := create_document_message conversation_id "assistant" reply_text r1.2
      (.ok [⟨r1.1, payload.role, payload.content⟩, ⟨r2.1, "assistant", reply_text⟩],
       some r2.2)
  else (.error ⟨400, "Invalid conversation id"⟩, db)

/-- The POST /api/conversations/(id)/messages pipeline: body validation,
then the handler; a validation failure leaves the store untouched. -/
def send_message_endpoint (conversation_id : PyStr) (role : Option String)
    (content : Option PyStr) (db : Option Store) :
    Except HErr (List MessageOut) × Option Store :=
  match parse_message_create role content with
  | .error e => (.error e, db)
  | .ok payload => send_message conversation_id payload db

/-- Modelled from the spec: the `db` handle of the absent database.py as
seen by the diagnostics endpoint: it has a name and its
`list_collection_names()` either returns the collection names or raises
(spec section 4.5: probes store availability, lists collection names if
reachable). -/
structure DbHandle where
  name : String
  collection_names : Except String (List String)

/-- The response dictionary of GET /test (main.py lines 91-98). -/
structure TestResponse where
  backend : String
  database : String
  database_url : Option String
  database_name : Option String
  connection_status : String
  collections : List String
deriving DecidableEq

/-- main.py lines 88-122, `test_database`: probe the store, list at most
the first 10 collection names, and finally overwrite the two
configuration fields with the presence of DATABASE_URL and DATABASE_NAME
(lines 118-120 run unconditionally, after the probe). -/
def test_database (db : Option DbHandle) (env_url : Bool) (env_name : Bool) :
    TestResponse :=
  let r0 : TestResponse :=
    ⟨"✅ Running", "❌ Not Available", none, none, "Not Connected", []⟩
  let r1 :=
    match db with
    | some h =>
      let r := { r0 with database := "✅ Available",
                         database_url := some "✅ Configured",
                         database_name := some h.name,
                         connection_status := "Connected" }
      match h.collection_names with
      | .ok names =>
        { r with collections := names.take 10, database := "✅ Connected & Working" }
      | .error e =>
        { r with database := "⚠️  Connected but Error: " ++ String.mk (e.toList.take 50) }
    | none => { r0 with database := "⚠️  Available but not initialized" }
  { r1 with database_url := some (if env_url then "✅ Set" else "❌ Not Set"),
            database_name := some (if env_name then "✅ Set" else "❌ Not Set") }

/-- A well-formed ObjectId string, used as concrete conversation
identifier by witnesses. -/
def oid24 : PyStr := "0123456789abcdef01234567".toList

/-- C2 (amended): the Response Generator first trims surrounding
whitespace; a trimmed input longer than 180 characters is embedded as its
first 180 characters with an ellipsis marker appended, and a trimmed
input of at most 180 characters is embedded unmodified with no ellipsis
marker. -/
theorem resumo_truncation (s : PyStr) :
    simple_ai_response s = response_header ++ resumo_echo (pyStrip s) ++ suggestion_block ∧
    resumo_echo (pyStrip s) =
      (if (pyStrip s).length ≤ 180 then pyStrip s
       else (pyStrip s).take 180 ++ "...".toList) := by
  refine ⟨rfl, ?_⟩
  by_cases h : (pyStrip s).length ≤ 180
  · rw [if_pos h]
    simp [resumo_echo, Nat.not_lt.mpr h, List.take_of_length_le h]
  · rw [if_neg h]
    simp [resumo_echo, Nat.lt_of_not_le h]

set_option maxRecDepth 4000 in
/-- C2 (counterexample to the claim as stated): the input "  hi" has at
most 180 characters, yet it is not embedded unmodified in the reply —
the generator strips the leading whitespace first, so the reply does not
contain the string "  hi" at all. -/
theorem resumo_truncation_counterexample :
    ("  hi".toList).length ≤ 180 ∧
    ¬ SubstrOf ("  hi".toList) (simple_ai_response ("  hi".toList)) := by
  refine ⟨by decide, ?_⟩
  rw [substrOf_iff_containsSub]
  decide

/-- C9: two inputs that differ only in leading or trailing whitespace
(equal after stripping) produce identical replies, and the ellipsis
marker is appended exactly when the trimmed input is longer than 180
characters. -/
theorem response_trim_invariant (s t : PyStr) (h : pyStrip s = pyStrip t) :
    simple_ai_response s = simple_ai_response t ∧
    (resumo_echo (pyStrip s) ≠ (pyStrip s).take 180 ↔ 180 < (pyStrip s).length) := by
  refine ⟨by simp [simple_ai_response, h], ?_⟩
  constructor
  · intro hne
    by_contra hle
    exact hne (by simp [resumo_echo, hle])
  · intro hlt heq
    have h2 := congrArg List.length heq
    simp [resumo_echo, hlt, List.length_append] at h2

/-- C9 witness at " hi " and "hi". -/
theorem response_trim_invariant_witness :
    pyStrip " hi ".toList = pyStrip "hi".toList ∧
    (simple_ai_response " hi ".toList = simple_ai_response "hi".toList ∧
     (resumo_echo (pyStrip " hi ".toList) ≠ (pyStrip " hi ".toList).take 180 ↔
      180 < (pyStrip " hi ".toList).length)) :=
  ⟨by decide, response_trim_invariant _ _ (by decide)⟩

/-- C5: for a malformed conversation identifier, both message endpoints
answer 400 "Invalid conversation id"; the message-listing handler reads
nothing and the send handler returns the store exactly as it received
it — no store operation is performed. -/
theorem invalid_id_rejected (cid : PyStr) (db : Option Store) (payload : MessageCreate)
    (h : isValidObjectId cid = false) :
    list_messages cid db = .error ⟨400, "Invalid conversation id"⟩ ∧
    send_message cid payload db = (.error ⟨400, "Invalid conversation id"⟩, db) := by
  constructor
  · simp [list_messages, h]
  · simp [send_message, h]

/-- C5 witness at the identifier "not-an-id". -/
theorem invalid_id_rejected_witness :
    isValidObjectId "not-an-id".toList = false ∧
    (list_messages "not-an-id".toList none = .error ⟨400, "Invalid conversation id"⟩ ∧
     send_message "not-an-id".toList ⟨"user", "Hello".toList⟩ none =
       (.error ⟨400, "Invalid conversation id"⟩, none)) :=
  ⟨by decide, invalid_id_rejected _ _ _ (by decide)⟩

/-- C6: a create-conversation request with an empty title fails pydantic
validation with status 422, and the store is returned unchanged — no
record is persisted. -/
theorem empty_title_rejected (model : Option PyStr) (db : Option Store) :
    create_conversation_endpoint (some []) model db =
      (.error ⟨422, "string should have at least 1 character"⟩, db) := by
  simp [create_conversation_endpoint, parse_conversation_create]

/-- C7: a send-message request with a well-formed identifier but no
configured store fails with 500 "Database not configured", before any
message is persisted. -/
theorem missing_store_rejected (cid : PyStr) (payload : MessageCreate)
    (h : isValidObjectId cid = true) :
    send_message cid payload none = (.error ⟨500, "Database not configured"⟩, none) := by
  simp [send_message, h]

/-- C7 witness at a concrete 24-character hexadecimal identifier. -/
theorem missing_store_rejected_witness :
    isValidObjectId oid24 = true ∧
    send_message oid24 ⟨"user", "Hello".toList⟩ none =
      (.error ⟨500, "Database not configured"⟩, none) :=
  ⟨by decide, missing_store_rejected _ _ (by decide)⟩

/-- C1: an accepted send-message request (well-formed identifier,
configured store, admissible role, non-empty content) answers with
exactly two records: the first carries the requested role (defaulting to
"user") and the request content verbatim; the second carries role
"assistant" and a content that contains the truncated echo of the request
content and the fixed suggestion template. -/
theorem send_message_two_records
    (cid : PyStr) (role : Option String) (content : PyStr) (st : Store)
    (hcid : isValidObjectId cid = true)
    (hrole : valid_role (role.getD "user") = true)
    (hcontent : 1 ≤ content.length) :
    (send_message_endpoint cid role (some content) (some st)).1 =
      .ok [⟨⟨st.next, st.next⟩, role.getD "user", content⟩,
           ⟨⟨st.next + 1, st.next + 1⟩, "assistant", simple_ai_response content⟩] ∧
    SubstrOf (resumo_echo (pyStrip content)) (simple_ai_response content) ∧
    SubstrOf suggestion_block (simple_ai_response content) := by
  have h1 : ¬ content.length < 1 := Nat.not_lt.mpr hcontent
  refine ⟨?_, ⟨response_header, suggestion_block, rfl⟩,
    ⟨response_header ++ resumo_echo (pyStrip content), [], by simp [simple_ai_response]⟩⟩
  simp [send_message_endpoint, parse_message_create, hrole, h1, send_message, hcid,
    create_document_message]

/-- C1 witness: sending "Hello" with the default role to a conversation
with a well-formed identifier on an empty store. -/
theorem send_message_two_records_witness :
    isValidObjectId oid24 = true ∧
    valid_role ((none : Option String).getD "user") = true ∧
    1 ≤ ("Hello".toList).length ∧
    ((send_message_endpoint oid24 none (some "Hello".toList) (some ⟨[], [], 0⟩)).1 =
      .ok [⟨⟨0, 0⟩, (none : Option String).getD "user", "Hello".toList⟩,
           ⟨⟨0 + 1, 0 + 1⟩, "assistant", simple_ai_response "Hello".toList⟩] ∧
     SubstrOf (resumo_echo (pyStrip "Hello".toList)) (simple_ai_response "Hello".toList) ∧
     SubstrOf suggestion_block (simple_ai_response "Hello".toList)) :=
  ⟨by decide, by decide, by decide,
   send_message_two_records oid24 none "Hello".toList ⟨[], [], 0⟩
     (by decide) (by decide) (by decide)⟩

/-- Validation helper: a payload accepted by the MessageCreate model
carries an admissible role. -/
theorem parse_message_create_role_valid (role : Option String) (content : Option PyStr)
    (p : MessageCreate) (h : parse_message_create role content = .ok p) :
    valid_role p.role = true := by
  simp only [parse_message_create] at h
  split at h
  · rename_i hv
    split at h
    · exact absurd h (by simp)
    · split at h
      · exact absurd h (by simp)
      · simp only [Except.ok.injEq] at h
        subst h
        exact hv
  · exact absurd h (by simp)

/-- C10: the send-message request body admits only the roles "user" and
"system": any other provided role fails validation with status 422 and
the store is returned untouched; consequently the first record of every
successful send response never carries role "assistant". -/
theorem send_message_role_restricted
    (cid : PyStr) (r : String) (content : Option PyStr) (db : Option Store)
    (hr : valid_role r = false) :
    send_message_endpoint cid (some r) content db =
      (.error ⟨422, "input should be user or system"⟩, db) ∧
    ∀ role c d msgs d2, send_message_endpoint cid role c d = (.ok msgs, d2) →
      ∃ m rest, msgs = m :: rest ∧ m.role ≠ "assistant" := by
  constructor
  · simp [send_message_endpoint, parse_message_create, hr]
  · intro role c d msgs d2 h
    unfold send_message_endpoint at h
    cases hp : parse_message_create role c with
    | error e => rw [hp] at h; simp at h
    | ok p =>
      rw [hp] at h
      have hv := parse_message_create_role_valid role c p hp
      split at h
      · rename_i e heq
        exact absurd heq (by simp)
      · rename_i payload heq
        simp only [Except.ok.injEq] at heq
        subst heq
        unfold send_message at h
        split at h
        · cases d with
          | none => simp at h
          | some st =>
            simp only [create_document_message, Prod.mk.injEq, Except.ok.injEq] at h
            obtain ⟨h1, -⟩ := h
            refine ⟨_, _, h1.symm, ?_⟩
            intro hc
            have hc2 : p.role = "assistant" := hc
            rw [hc2] at hv
            exact absurd hv (by decide)
        · simp at h

/-- C10 witness: a request with role "assistant" is rejected with 422 and
no store change. -/
theorem send_message_role_restricted_witness :
    valid_role "assistant" = false ∧
    send_message_endpoint oid24 (some "assistant") (some "Hello".toList) none =
      (.error ⟨422, "input should be user or system"⟩, none) :=
  ⟨by decide,
   (send_message_role_restricted oid24 "assistant" (some "Hello".toList) none (by decide)).1⟩

/-- C3: for every stored collection of conversation documents, in any
order, the listing endpoint returns all of them (as a permutation of the
mapped documents), sorted descending by the creation time embedded in
each identifier. -/
theorem list_conversations_sorted (st : Store) :
    ∃ out, list_conversations (some st) = .ok out ∧
      out.Perm (st.conversations.map conv_doc_to_out) ∧
      List.Pairwise (fun a b => b.id.generation_time ≤ a.id.generation_time) out := by
  refine ⟨(st.conversations.map conv_doc_to_out).mergeSort conv_before, rfl,
    List.mergeSort_perm _ _, ?_⟩
  have hs : List.Pairwise (fun a b => conv_before a b = true)
      ((st.conversations.map conv_doc_to_out).mergeSort conv_before) :=
    List.sorted_mergeSort
      (fun a b c h1 h2 => by
        simp only [conv_before, decide_eq_true_eq] at h1 h2 ⊢
        omega)
      (fun a b => by
        simp only [conv_before, Bool.or_eq_true, decide_eq_true_eq]
        omega)
      _
  exact hs.imp (fun h => by simpa [conv_before] using h)

/-- C4: a valid create-conversation request (non-empty title, optional
model) persists exactly one new conversation document and answers with
the store-generated identifier, the given title and the given model
(defaulted to "gpt-4o-mini" when omitted); a subsequent listing contains
a conversation with exactly these fields. -/
theorem create_conversation_persists (title : PyStr) (model : Option PyStr) (st : Store)
    (h : 1 ≤ title.length) :
    ∃ oid st2 out,
      create_conversation_endpoint (some title) model (some st) =
        (.ok ⟨oid, title, model.getD default_model⟩, some st2) ∧
      st2.conversations =
        st.conversations ++ [⟨oid, title, some (model.getD default_model)⟩] ∧
      list_conversations (some st2) = .ok out ∧
      (⟨oid, title, model.getD default_model⟩ : ConversationOut) ∈ out := by
  have h1 : ¬ title.length < 1 := Nat.not_lt.mpr h
  refine ⟨⟨st.next, st.next⟩,
    ⟨st.conversations ++ [⟨⟨st.next, st.next⟩, title, some (model.getD default_model)⟩],
     st.messages, st.next + 1⟩, _, ?_, rfl, rfl, ?_⟩
  · simp [create_conversation_endpoint, parse_conversation_create, h1,
      create_conversation, create_document_conversation]
  · rw [List.mem_mergeSort]
    simp [get_documents_conversation, conv_doc_to_out]

/-- C4 witness: creating a conversation titled "t" with the model field
omitted, on an empty store. -/
theorem create_conversation_persists_witness :
    1 ≤ ("t".toList).length ∧
    ∃ oid st2 out,
      create_conversation_endpoint (some "t".toList) none (some ⟨[], [], 0⟩) =
        (.ok ⟨oid, "t".toList, (none : Option PyStr).getD default_model⟩, some st2) ∧
      st2.conversations = (⟨[], [], 0⟩ : Store).conversations ++
        [⟨oid, "t".toList, some ((none : Option PyStr).getD default_model)⟩] ∧
      list_conversations (some st2) = .ok out ∧
      (⟨oid, "t".toList, (none : Option PyStr).getD default_model⟩ : ConversationOut) ∈ out :=
  ⟨by decide, create_conversation_persists "t".toList none ⟨[], [], 0⟩ (by decide)⟩

/-- C8: the diagnostics endpoint reports exactly the first 10 collection
names when the store is reachable and an empty list otherwise (never more
than 10), and its two configuration fields report exactly the presence of
DATABASE_URL and DATABASE_NAME; the model reads the store and writes
nothing. -/
theorem test_database_reports (db : Option DbHandle) (env_url env_name : Bool) :
    (test_database db env_url env_name).collections =
      (match db with
       | none => []
       | some h =>
         match h.collection_names with
         | .ok names => names.take 10
         | .error _ => []) ∧
    (test_database db env_url env_name).collections.length ≤ 10 ∧
    (test_database db env_url env_name).database_url =
      some (if env_url then "✅ Set" else "❌ Not Set") ∧
    (test_database db env_url env_name).database_name =
      some (if env_name then "✅ Set" else "❌ Not Set") := by
  cases db with
  | none => simp [test_database]
  | some h =>
    cases h with
    | mk nm cn =>
      cases cn with
      | ok names =>
        refine ⟨by simp [test_database], ?_, by simp [test_database], by simp [test_database]⟩
        simp only [test_database, List.length_take]
        omega
      | error e => simp [test_database]

end Backend
